import Mathlib

/-!
Verification development for the MCP-Server-Unified-Deployment repository.

This file shallowly embeds the process-supervision logic of
`src/scripts/manage_mcp.py` and of `src/scripts/mcp_manager/commands.py` /
`src/scripts/mcp_manager/process_utils.py`, and proves or refutes the frozen
claims about it.

Modelling conventions:
* The PID-file registry (`pids/<name>.pid`) is an association list
  `List (String × Nat)`.
* `psutil.pid_exists` is membership in a list `livePids` of live process ids.
* `psutil.net_connections` is `Option (List Conn)`: `none` models the call
  raising (`AccessDenied` or any other exception), `some conns` a successful
  query of the connection table.
* Side effects on operating-system processes (terminate / kill / spawn) and on
  the registry are recorded as an explicit event trace, so that frame and
  safety properties can be stated as properties of the trace.
* Runtime nondeterminism (did the process answer SIGTERM in time, did `Popen`
  raise, what does `poll()` return after the grace sleep, ...) is supplied by
  explicit environment structures (`StopEnv`, `StartEnv`, ...), so each
  theorem quantifies over every such outcome.
-/

namespace ManageMcp

/-- One entry of `psutil.net_connections(kind='inet')`: its status
(`CONN_LISTEN` or not), its local port, and its owning pid
(`conn.pid` may be `None`, modelled as `none`). -/
structure Conn where
  isListen : Bool
  laddrPort : Nat
  pid : Option Nat
deriving DecidableEq, Repr

/-- Observable world state used by `manage_mcp.py`: the PID-file registry,
the set of live pids, the connection table (or `none` when querying it
raises), and the supervisor's own environment `os.environ`. -/
structure World where
  pidFiles : List (String × Nat)
  livePids : List Nat
  conns : Option (List Conn)
  osEnviron : List (String × String)
deriving DecidableEq, Repr

/-- Operating-system effects performed by the supervisor, in order. -/
inductive Event where
  | terminateChild (pid : Nat)
  | killChild (pid : Nat)
  | terminateProc (pid : Nat)
  | killProc (pid : Nat)
  | removePid (name : String)
  | savePid (name : String) (pid : Nat)
  | spawn (cmd : List String) (shell : Bool) (env : List (String × String))
deriving DecidableEq, Repr

/-- Does an event signal or kill an operating-system process? -/
def Event.touchesProcess : Event → Bool
  | .terminateChild _ => true
  | .killChild _ => true
  | .terminateProc _ => true
  | .killProc _ => true
  | _ => false

/-- Is the event the spawning of a new process? -/
def Event.isSpawn : Event → Bool
  | .spawn _ _ _ => true
  | _ => false

/-- Does the trace contain a spawn event? -/
def hasSpawn (tr : List Event) : Bool :=
  tr.any Event.isSpawn

/-- Association-list lookup, mirroring reading `pids/<name>.pid` (and dict
lookup on `RUNNING_PROCESSES`). -/
def lookupA {α : Type} (l : List (String × α)) (k : String) : Option α :=
  (l.find? (fun p => p.1 == k)).map (fun p => p.2)

/-- Association-list removal, mirroring `remove_pid_file` (and `del` on
`RUNNING_PROCESSES`). -/
def eraseA {α : Type} (l : List (String × α)) (k : String) : List (String × α) :=
  l.filter (fun p => p.1 != k)

/-- Association-list overwrite, mirroring `save_pid` (the file is rewritten). -/
def setA {α : Type} (l : List (String × α)) (k : String) (v : α) : List (String × α) :=
  (k, v) :: eraseA l k

/-- Python truthiness for an optional string: `None` and `""` are falsy
(`if not name: ...`). -/
def getTruthyStr : Option String → Option String
  | none => none
  | some s => if s == "" then none else some s

/-- Python truthiness for an optional integer: `None` and `0` are falsy
(`if not internal_port: ...`). -/
def getTruthyNat : Option Nat → Option Nat
  | none => none
  | some n => if n == 0 then none else some n

/-- A service entry of `mcp_servers.yaml` as consumed by `manage_mcp.py`
(`server.get(...)` on the fields the supervisor reads). -/
structure ServerSpec where
  name : Option String
  internalPort : Option Nat
  startCommand : Option String
  proxyListenHost : Option String
  allowOrigin : Option String
  env : List (String × String)
  enabled : Bool
deriving DecidableEq, Repr

/-- Model of `load_pid(name)`. -/
def load_pid (w : World) (name : String) : Option Nat :=
  lookupA w.pidFiles name

/-- Model of `is_running(pid)` = `psutil.pid_exists(pid)`. -/
def is_running (w : World) (pid : Nat) : Bool :=
  w.livePids.contains pid

/-- Model of `is_port_in_use(port)`.  Scans the connection table for the
first `CONN_LISTEN` entry on the port; returns its pid, `-1` when the owning
pid is unknown (`conn.pid` falsy), and `none` when the port is free, when
`port` is `None`, or when the table query raises (`AccessDenied` or any
other exception — both `except` arms return `None`). -/
def is_port_in_use (w : World) (port : Option Nat) : Option Int :=
  match port with
  | none => none
  | some p =>
    match w.conns with
    | none => none
    | some cs =>
      match cs.find? (fun c => c.isListen && c.laddrPort == p) with
      | none => none
      | some c =>
        match c.pid with
        | none => some (-1)
        | some q => if q == 0 then some (-1) else some (q : Int)

/-- Runtime outcomes of one `stop_server` call: the children of the proxy
process, the children still alive after the 3-second `wait_procs`, whether
`psutil.Process(pid)` raised `NoSuchProcess`, whether the main process
answered SIGTERM within 5 seconds, whether some other exception interrupted
the sequence, and whether the process was still alive in the fallback
handler. -/
structure StopEnv where
  children : List Nat
  survivors : List Nat
  procMissing : Bool
  gracefulStop : Bool
  otherError : Bool
  aliveAfterError : Bool
deriving DecidableEq, Repr

/-- Model of `stop_server(server)`.  Branch structure of the source:

* no truthy `name` → log and return;
* `pid and is_running(pid)` → terminate children, kill survivors, terminate
  the main process, escalate to `kill` on timeout; `NoSuchProcess` and other
  exceptions are caught (the latter with a fallback kill attempt); in every
  case the `finally` block removes the PID file;
* `pid and not is_running(pid)` → remove the stale PID file;
* otherwise (no PID file, or a falsy pid `0`) → log only. -/
def stop_server (w : World) (e : StopEnv) (server : ServerSpec) : World × List Event :=
  match getTruthyStr server.name with
  | none => (w, [])
  | some name =>
    match lookupA w.pidFiles name with
    | some pid =>
      if pid != 0 && is_running w pid then
        let body :=
          if e.procMissing then []
          else if e.otherError then
            if e.aliveAfterError then [Event.killProc pid] else []
          else
            e.children.map Event.terminateChild
              ++ e.survivors.map Event.killChild
              ++ (if e.gracefulStop then [Event.terminateProc pid]
                  else [Event.terminateProc pid, Event.killProc pid])
        ({ w with pidFiles := eraseA w.pidFiles name }, body ++ [Event.removePid name])
      else if pid != 0 then
        ({ w with pidFiles := eraseA w.pidFiles name }, [Event.removePid name])
      else
        (w, [])
    | none => (w, [])

/-- Runtime outcomes of one `start_server` call: the `StopEnv` used when the
degraded-running branch calls `stop_server`, whether opening the log file
succeeded, and the pid returned by `Popen` (`none` when `Popen` raised). -/
structure StartEnv where
  stopEnv : StopEnv
  logOpenOk : Bool
  spawnResult : Option Nat
deriving DecidableEq, Repr

/-- Simplified POSIX `shlex.split` as used on `start_command`: whitespace
separation, single quotes (literal), double quotes (with backslash escaping
`"` and `\`), backslash escaping outside quotes; `none` models the
`ValueError` raised on an unterminated quote or trailing escape. -/
inductive LexMode where
  | normal
  | inSingle
  | inDouble
  | escaped
  | escapedInDouble
deriving DecidableEq, Repr

/-- Flush the current token (if any) onto the accumulated token list. -/
def lexFlush (cur : Option (List Char)) (acc : List String) : List String :=
  match cur with
  | none => acc
  | some t => String.mk t.reverse :: acc

/-- The horizontal-tab character. -/
def chTab : Char := Char.ofNat 9

/-- The line-feed character. -/
def chNewline : Char := Char.ofNat 10

/-- The double-quote character. -/
def chDquote : Char := Char.ofNat 34

/-- The single-quote character. -/
def chSquote : Char := Char.ofNat 39

/-- The backslash character. -/
def chBackslash : Char := Char.ofNat 92

/-- Character-at-a-time tokenizer loop for `shlexSplit`. -/
def lexGo : List Char → LexMode → Option (List Char) → List String → Option (List String)
  | [], .normal, cur, acc => some (lexFlush cur acc).reverse
  | [], _, _, _ => none
  | c :: rest, .normal, cur, acc =>
    if c == ' ' || c == chTab || c == chNewline then
      lexGo rest .normal none (lexFlush cur acc)
    else if c == chSquote then
      lexGo rest .inSingle (some (cur.getD [])) acc
    else if c == chDquote then
      lexGo rest .inDouble (some (cur.getD [])) acc
    else if c == chBackslash then
      lexGo rest .escaped (some (cur.getD [])) acc
    else
      lexGo rest .normal (some (c :: cur.getD [])) acc
  | c :: rest, .inSingle, cur, acc =>
    if c == chSquote then lexGo rest .normal cur acc
    else lexGo rest .inSingle (some (c :: cur.getD [])) acc
  | c :: rest, .inDouble, cur, acc =>
    if c == chDquote then lexGo rest .normal cur acc
    else if c == chBackslash then lexGo rest .escapedInDouble cur acc
    else lexGo rest .inDouble (some (c :: cur.getD [])) acc
  | c :: rest, .escaped, cur, acc =>
    lexGo rest .normal (some (c :: cur.getD [])) acc
  | c :: rest, .escapedInDouble, cur, acc =>
    if c == chDquote || c == chBackslash then
      lexGo rest .inDouble (some (c :: cur.getD [])) acc
    else
      lexGo rest .inDouble (some (c :: chBackslash :: cur.getD [])) acc

/-- Model of `shlex.split(original_start_command_str)`. -/
def shlexSplit (s : String) : Option (List String) :=
  lexGo s.data .normal none []

/-- The `mcp-proxy` invocation list built by `start_server`: the wrapper's
own flags first, then one `-e KEY VALUE` triple per extra environment entry,
then the tokenized original command. -/
def proxyCommandList (host : String) (port : Nat) (origin : String)
    (senv : List (String × String)) (cmd : String) (args : List String) :
    List String :=
  ["mcp-proxy", "--sse-host", host, "--sse-port", toString port, "--allow-origin", origin]
    ++ senv.flatMap (fun kv => ["-e", kv.1, kv.2])
    ++ cmd :: args

/-- Tail of `start_server` from the port-conflict check at line 141 onwards:
probe the port, tokenize the command, build the `mcp-proxy` list, open the
log, spawn with `shell=False` and the supervisor's unmodified environment
`os.environ.copy()`, and save the new pid. -/
def startCoreAux (w : World) (e : StartEnv) (name : String) (port : Nat)
    (cmdStr host origin : String) (senv : List (String × String)) :
    World × List Event :=
  match is_port_in_use w (some port) with
  | some _ => (w, [])
  | none =>
    match shlexSplit cmdStr with
    | none => (w, [])
    | some [] => (w, [])
    | some (cmd :: args) =>
      if e.logOpenOk then
        match e.spawnResult with
        | none => (w, [])
        | some newPid =>
          ({ w with pidFiles := setA w.pidFiles name newPid },
            [Event.spawn (proxyCommandList host port origin senv cmd args) false
               w.osEnviron,
             Event.savePid name newPid])
      else (w, [])

/-- The same tail, with the events `evs` already emitted by the earlier
branches of `start_server` prepended to its trace. -/
def startCore (w : World) (e : StartEnv) (name : String) (port : Nat)
    (cmdStr host origin : String) (senv : List (String × String))
    (evs : List Event) : World × List Event :=
  ((startCoreAux w e name port cmdStr host origin senv).1,
    evs ++ (startCoreAux w e name port cmdStr host origin senv).2)

/-- Model of `start_server(server)`.  Branch structure of the source:

* missing/falsy `name`, `internal_port` or `start_command` → log and return;
* PID file present with a live pid: if the port probe confirms that same pid
  the call is a no-op; if the port is held by someone else a warning is
  logged and control falls through to the pre-spawn port check (which then
  refuses); if the port is not listening the server is considered stuck,
  `stop_server` runs first and control falls through;
* PID file present with a dead pid → the stale file is removed first;
* then the pre-spawn port check, tokenization, command building, log
  creation, `Popen(..., shell=False, env=os.environ.copy())` and `save_pid`
  (`startCore`). -/
def start_server (w : World) (e : StartEnv) (server : ServerSpec) : World × List Event :=
  match getTruthyStr server.name with
  | none => (w, [])
  | some name =>
    match getTruthyNat server.internalPort with
    | none => (w, [])
    | some port =>
      match getTruthyStr server.startCommand with
      | none => (w, [])
      | some cmdStr =>
        let host := server.proxyListenHost.getD "0.0.0.0"
        let origin := server.allowOrigin.getD "*"
        match lookupA w.pidFiles name with
        | some pid =>
          if pid != 0 && is_running w pid then
            match is_port_in_use w (some port) with
            | some q =>
              if q == (pid : Int) then (w, [])
              else startCore w e name port cmdStr host origin server.env []
            | none =>
              let stopped := stop_server w e.stopEnv server
              startCore stopped.1 e name port cmdStr host origin server.env stopped.2
          else if pid != 0 then
            startCore { w with pidFiles := eraseA w.pidFiles name } e name port cmdStr
              host origin server.env [Event.removePid name]
          else
            startCore w e name port cmdStr host origin server.env []
        | none => startCore w e name port cmdStr host origin server.env []

/-- Status classification produced by `server_status`, one constructor per
distinct `status_str` the source can build. -/
inductive Classification where
  | disabled
  | runningOk (port : Nat)
  | runningConflict (port : Nat) (other : Int)
  | runningNotListening (port : Nat)
  | runningUnknown
  | stoppedExternal (owner : Int)
  | stopped
  | stoppedStale
deriving DecidableEq, Repr

/-- The `port_pid = is_port_in_use(internal_port) if internal_port else None`
line of `server_status`. -/
def statusPortPid (w : World) (server : ServerSpec) : Option Int :=
  match getTruthyNat server.internalPort with
  | some p => is_port_in_use w (some p)
  | none => none

/-- Model of `server_status(server)`.  Returns the (possibly mutated) world
and the classification; the only mutation in the source is
`remove_pid_file(name)` in the stale branch (record present, process dead,
port probe reporting nothing). -/
def server_status (w : World) (server : ServerSpec) : World × Classification :=
  let name := server.name.getD "N/A"
  if !server.enabled then (w, .disabled)
  else
    let pid? := lookupA w.pidFiles name
    let portPid := statusPortPid w server
    match pid? with
    | some pid =>
      if pid != 0 && is_running w pid then
        match portPid with
        | some q =>
          if q == (pid : Int) then
            (w, .runningOk (server.internalPort.getD 0))
          else
            (w, .runningConflict (server.internalPort.getD 0) q)
        | none =>
          match getTruthyNat server.internalPort with
          | some p => (w, .runningNotListening p)
          | none => (w, .runningUnknown)
      else if pid != 0 then
        match portPid with
        | some q => (w, .stoppedExternal q)
        | none => ({ w with pidFiles := eraseA w.pidFiles name }, .stoppedStale)
      else
        match portPid with
        | some q => (w, .stoppedExternal q)
        | none => (w, .stopped)
    | none =>
      match portPid with
      | some q => (w, .stoppedExternal q)
      | none => (w, .stopped)

/-- Guard under which `server_status` removes the PID file: the spec is
enabled, a record with a truthy pid exists, the process is dead, and the
port probe reports nothing. -/
def statusStale (w : World) (server : ServerSpec) : Bool :=
  server.enabled &&
    (match lookupA w.pidFiles (server.name.getD "N/A") with
     | some pid => pid != 0 && !(is_running w pid)
     | none => false) &&
    (statusPortPid w server == none)

/-- Python `str.lower()` (ASCII). -/
def pyLower (s : String) : String :=
  String.mk (s.data.map Char.toLower)

/-- Model of `main()`, returning the process exit code as a function of the
command-line arguments after the script name and of the `load_config`
result (`none` models every way `load_config` returns `None`).  Commands
that fall off the end of `main` exit with the interpreter's default code 0;
`run_daemon` returns (rather than exiting nonzero) when it cannot load its
configuration, after which `main` executes `sys.exit(0)`. -/
def mainExit (args : List String) (cfg : Option (List ServerSpec)) : Nat :=
  match args with
  | [] => 1
  | cmd :: rest =>
    let command := pyLower cmd
    if command == "status" then 0
    else if command == "daemon" then 0
    else if command == "start-all" then 0
    else if command == "stop-all" then 0
    else if command == "start" || command == "stop" || command == "restart" then
      match getTruthyStr rest.head? with
      | none =>
        if command == "start" then 0
        else if command == "stop" then 0
        else 1
      | some n =>
        match cfg with
        | none => 1
        | some servers =>
          match servers.find? (fun s => s.name == some n) with
          | none => 1
          | some _ => 0
    else 1

end ManageMcp

namespace McpManager

/-!
Embedding of the second manager, `src/scripts/mcp_manager/`: the in-memory
running-process table `RUNNING_PROCESSES`, `run_command` from
`process_utils.py`, and `start_server` / `status_servers` from
`commands.py`.
-/

/-- Substring test on character lists, used for the shell-operator scan of
`run_command` (`any(op in command for op in [...])`). -/
def listContainsSub (needle hay : List Char) : Bool :=
  match hay with
  | [] => needle.isEmpty
  | _ :: t => needle.isPrefixOf hay || listContainsSub needle t

/-- Python `op in command` on strings. -/
def strContains (hay needle : String) : Bool :=
  listContainsSub needle.data hay.data

/-- Python `command.split()`: whitespace split, empty fields dropped. -/
def pySplit (s : String) : List String :=
  (s.split (fun c => c.isWhitespace)).filter (fun t => !(t == ""))

/-- The `shell=` flag `run_command` passes to `Popen` as a function of
`os.name` and the command string.  On Windows: `cmd /c` prefixes and shell
operators force `shell=True`; `npm`/`npx` are rewritten through `cmd /c`
with `shell=True`; other commands are split and run with `shell=False`
(falling back to `shell=True` when the split has nothing to inspect).  On
every other platform the raw command string is passed with `shell=True`. -/
def run_command_shell (osName : String) (command : String) : Bool :=
  if osName == "nt" then
    if (ManageMcp.pyLower command).startsWith "cmd /c"
        || ["|", ">", "<", "&", "&&", "||"].any (fun op => strContains command op) then
      true
    else if (ManageMcp.pyLower command).startsWith "npm "
        || (ManageMcp.pyLower command).startsWith "npx " then
      true
    else
      match pySplit command with
      | [] => true
      | _ :: _ => false
  else
    true

/-- The first `Popen` argument `run_command` builds: a raw string handed to
a shell (`Sum.inl`) or an argument list (`Sum.inr`). -/
def run_command_args (osName : String) (command : String) : Sum String (List String) :=
  if osName == "nt" then
    if (ManageMcp.pyLower command).startsWith "cmd /c"
        || ["|", ">", "<", "&", "&&", "||"].any (fun op => strContains command op) then
      Sum.inl command
    else if (ManageMcp.pyLower command).startsWith "npm "
        || (ManageMcp.pyLower command).startsWith "npx " then
      Sum.inl ("cmd /c " ++ command)
    else
      match pySplit command with
      | [] => Sum.inl command
      | t => Sum.inr t
  else
    Sum.inl command

/-- Service entry of `config.json` as consumed by `commands.start_server`. -/
structure SConfig where
  name : String
  enabled : Bool
  stype : Option String
  pathPresent : Bool
  startCommand : Option String
  sseTemplate : Bool
  templateOk : Bool
  ssePort : Option Nat
  port : Option Nat
deriving DecidableEq, Repr

/-- Python `a or b` over the two optional port fields, with `None`/`0`
falsy, normalized to a truthy value. -/
def pyOrPort (a b : Option Nat) : Option Nat :=
  match ManageMcp.getTruthyNat a with
  | some n => some n
  | none => ManageMcp.getTruthyNat b

/-- Runtime outcomes of one `commands.start_server` call: `poll()` of an
existing table entry, the first `is_port_in_use` answer, the `run_command`
result (`none` when it returned `None`), `poll()` after the 3-second grace
sleep, and the final port check. -/
structure CmdEnv where
  existingPoll : Option Int
  portCheck1 : Bool
  runResult : Option Nat
  pollAfterGrace : Option Int
  portCheck2 : Bool
deriving DecidableEq, Repr

/-- What one `commands.start_server` call reported. -/
inductive CmdOutcome where
  | skippedDisabled
  | alreadyRunning
  | pathMissing
  | noCommand
  | missingSsePort
  | templateError
  | spawnFailed
  | crashedEarly (code : Int)
  | startedOk
  | startedPortWarn
  | startedNoPortCheck
  | watchFinished
deriving DecidableEq, Repr

/-- Did the call report the server as started and running in the background? -/
def CmdOutcome.isStarted : CmdOutcome → Bool
  | .startedOk => true
  | .startedPortWarn => true
  | .startedNoPortCheck => true
  | _ => false

/-- Model of `commands.start_server(server_config, watch)`.  Branch
structure of the source: disabled specs are skipped; a table entry whose
process still polls `None` is either left alone (port listening → already
running) or deleted before a fresh start; `source_code` specs need a valid
path; the start command must be present; an `sse_start_command` template
needs a truthy `sse_port` and a successful `format`; `run_command` may fail;
on success the process is recorded, and in non-watch mode a 3-second grace
sleep is followed by one `poll()` — an exited process is reported as having
crashed early and its record deleted — and then a port re-check. -/
def start_server (tbl : List (String × Nat)) (watch : Bool) (e : CmdEnv)
    (cfg : SConfig) : List (String × Nat) × CmdOutcome :=
  if !cfg.enabled then (tbl, .skippedDisabled)
  else
    let dup : Option (List (String × Nat)) :=
      match ManageMcp.lookupA tbl cfg.name with
      | some _ =>
        if e.existingPoll == none then
          if (pyOrPort cfg.ssePort cfg.port).isSome && e.portCheck1 then none
          else some (ManageMcp.eraseA tbl cfg.name)
        else some tbl
      | none => some tbl
    match dup with
    | none => (tbl, .alreadyRunning)
    | some tbl1 =>
      if cfg.stype == some "source_code" && !cfg.pathPresent then (tbl1, .pathMissing)
      else
        match ManageMcp.getTruthyStr cfg.startCommand with
        | none => (tbl1, .noCommand)
        | some _ =>
          if cfg.sseTemplate && (ManageMcp.getTruthyNat cfg.ssePort == none) then
            (tbl1, .missingSsePort)
          else if cfg.sseTemplate && !cfg.templateOk then
            (tbl1, .templateError)
          else
            match e.runResult with
            | none => (tbl1, .spawnFailed)
            | some pid =>
              let tbl2 := ManageMcp.setA tbl1 cfg.name pid
              if watch then (ManageMcp.eraseA tbl2 cfg.name, .watchFinished)
              else
                match e.pollAfterGrace with
                | some code => (ManageMcp.eraseA tbl2 cfg.name, .crashedEarly code)
                | none =>
                  match pyOrPort cfg.ssePort cfg.port with
                  | some _ => if e.portCheck2 then (tbl2, .startedOk)
                              else (tbl2, .startedPortWarn)
                  | none => (tbl2, .startedNoPortCheck)

/-- One `RUNNING_PROCESSES` entry as seen by `status_servers`: name, pid,
and the `poll()` result (`none` while the process is still running). -/
abbrev StatusEntry := String × Nat × Option Int

/-- The cleanup loop at the top of `status_servers`: iterate over a snapshot
of the table and delete every entry whose process has exited. -/
def statusPruneGo (tbl : List StatusEntry) : List StatusEntry → List StatusEntry
  | [] => tbl
  | e :: rest =>
    statusPruneGo (if e.2.2 == none then tbl else ManageMcp.eraseA tbl e.1) rest

/-- Model of the `status_servers` cleanup pass over `RUNNING_PROCESSES`. -/
def statusPrune (tbl : List StatusEntry) : List StatusEntry :=
  statusPruneGo tbl tbl

end McpManager

namespace Race

/-!
Interleaving model for the per-name mutual-exclusion claim.  `manage_mcp.py`
takes no lock of any kind, so two concurrent `start_server` calls for the
same name interleave at operating-system granularity.  Each thread runs the
racy skeleton of `start_server` — read the PID file, handle the
stale/alive branches, probe the port, spawn, save the pid — as five atomic
steps.  A freshly spawned child has not yet bound its port (binding happens
inside the child after the exec, which is why the source itself re-checks
the port only later), so the probe sees only pre-existing listeners.
-/

/-- Shared operating-system state for the race model. -/
structure Shared where
  pidFile : Option Nat
  live : List Nat
  portBound : Bool
  spawnCount : Nat
  nextPid : Nat
deriving DecidableEq, Repr

/-- One thread executing the skeleton of `start_server`: program counter,
the pid it read from the registry, and the pid it spawned. -/
structure TState where
  pc : Nat
  seenPid : Option Nat
  myPid : Option Nat
deriving DecidableEq, Repr

/-- One atomic step of a thread: 0 `load_pid`; 1 the alive/stale branch; 2
`is_port_in_use`; 3 `Popen`; 4 `save_pid`; 5 done. -/
def step (s : Shared) (t : TState) : Shared × TState :=
  match t.pc with
  | 0 => (s, { t with seenPid := s.pidFile, pc := 1 })
  | 1 =>
    match t.seenPid with
    | some q =>
      if s.live.contains q then (s, { t with pc := 5 })
      else ({ s with pidFile := none }, { t with pc := 2 })
    | none => (s, { t with pc := 2 })
  | 2 => if s.portBound then (s, { t with pc := 5 }) else (s, { t with pc := 3 })
  | 3 =>
    ({ s with spawnCount := s.spawnCount + 1, live := s.nextPid :: s.live,
              nextPid := s.nextPid + 1 },
     { t with myPid := some s.nextPid, pc := 4 })
  | 4 =>
    match t.myPid with
    | some p => ({ s with pidFile := some p }, { t with pc := 5 })
    | none => (s, { t with pc := 5 })
  | _ => (s, t)

/-- Run a schedule: `false` steps thread A, `true` steps thread B. -/
def run : List Bool → Shared → TState → TState → Shared × TState × TState
  | [], s, a, b => (s, a, b)
  | c :: rest, s, a, b =>
    if c then
      let sb := step s b
      run rest sb.1 a sb.2
    else
      let sa := step s a
      run rest sa.1 sa.2 b

/-- Initial world for the race scenario: no registry record, no live
processes, port free. -/
def raceStart : Shared :=
  { pidFile := none, live := [], portBound := false, spawnCount := 0, nextPid := 100 }

/-- A fresh thread about to execute `start_server`. -/
def freshThread : TState :=
  { pc := 0, seenPid := none, myPid := none }

/-- The strictly alternating schedule: both threads pass the registry check
and the port probe before either spawns. -/
def altSchedule : List Bool :=
  [false, true, false, true, false, true, false, true, false, true]

end Race

namespace Fix

/-!
Concrete inputs used by the counterexamples and by the witnesses of the
hypothesis-bearing theorems.
-/

/-- A benign stop environment: no children, graceful termination, no errors. -/
def benignStop : ManageMcp.StopEnv :=
  { children := [], survivors := [], procMissing := false, gracefulStop := true,
    otherError := false, aliveAfterError := false }

/-- A benign start environment: the log opens and `Popen` returns pid 77. -/
def benignStart : ManageMcp.StartEnv :=
  { stopEnv := benignStop, logOpenOk := true, spawnResult := some 77 }

/-- An enabled service named `svc` on internal port 9001. -/
def spec9001 : ManageMcp.ServerSpec :=
  { name := some "svc", internalPort := some 9001,
    startCommand := some "serve --port 9001", proxyListenHost := none,
    allowOrigin := none, env := [("API_KEY", "k")], enabled := true }

/-- The same service, disabled in the configuration. -/
def spec9001Disabled : ManageMcp.ServerSpec :=
  { spec9001 with enabled := false }

/-- World with no registry record for `svc` while port 9001 is occupied by
an unrelated live process 99. -/
def wBusyNoRecord : ManageMcp.World :=
  { pidFiles := [], livePids := [99],
    conns := some [{ isListen := true, laddrPort := 9001, pid := some 99 }],
    osEnviron := [("PATH", "/usr/bin")] }

/-- World with a stale record (`svc` ↦ dead pid 42) while port 9001 is
occupied by an unidentified owner. -/
def wStaleBusy : ManageMcp.World :=
  { pidFiles := [("svc", 42)], livePids := [],
    conns := some [{ isListen := true, laddrPort := 9001, pid := none }],
    osEnviron := [] }

/-- World with a stale record (`svc` ↦ dead pid 42) and a free port. -/
def wStaleFree : ManageMcp.World :=
  { pidFiles := [("svc", 42)], livePids := [], conns := some [], osEnviron := [] }

/-- World with a live record (`svc` ↦ live pid 42) and a free port. -/
def wRecordAlive : ManageMcp.World :=
  { pidFiles := [("svc", 42)], livePids := [42], conns := some [], osEnviron := [] }

/-- World with no record where the connection-table query raises. -/
def wProbeDenied : ManageMcp.World :=
  { pidFiles := [], livePids := [], conns := none, osEnviron := [("HOME", "/root")] }

/-- World with no record, an empty connection table and a free port. -/
def wFreePort : ManageMcp.World :=
  { pidFiles := [], livePids := [], conns := some [], osEnviron := [("PATH", "/bin")] }

/-- A plain enabled service for the `mcp_manager` start path. -/
def cfgPlain : McpManager.SConfig :=
  { name := "svc", enabled := true, stype := none, pathPresent := true,
    startCommand := some "serve --port 9001", sseTemplate := false,
    templateOk := true, ssePort := some 9001, port := none }

/-- Environment where the spawned process exits inside the grace window
with code 1. -/
def envCrash : McpManager.CmdEnv :=
  { existingPoll := none, portCheck1 := false, runResult := some 55,
    pollAfterGrace := some 1, portCheck2 := true }

/-- Environment where the spawned process survives the grace window and the
port is confirmed listening. -/
def envLive : McpManager.CmdEnv :=
  { existingPoll := none, portCheck1 := false, runResult := some 55,
    pollAfterGrace := none, portCheck2 := true }

end Fix

namespace ManageMcp

/-!
Helper lemmas shared by the claim theorems.
-/

/-- Looking a key up after erasing it finds nothing. -/
theorem lookupA_eraseA {α : Type} (l : List (String × α)) (k : String) :
    lookupA (eraseA l k) k = none := by
  induction l with
  | nil => rfl
  | cons p t ih =>
    simp only [eraseA, List.filter_cons] at *
    by_cases h : (p.1 != k) = true
    · rw [if_pos h]
      simp only [lookupA, List.find?]
      have hne : (p.1 == k) = false := by simpa using h
      rw [hne]
      exact ih
    · rw [if_neg h]
      exact ih

/-- Looking a key up after overwriting it finds the new value. -/
theorem lookupA_setA {α : Type} (l : List (String × α)) (k : String) (v : α) :
    lookupA (setA l k v) k = some v := by
  simp [lookupA, setA, List.find?]

/-- The last element of a trace that ends in a fixed event. -/
theorem getLast_append_one {α : Type} (l : List α) (a : α) :
    (l ++ [a]).getLast? = some a :=
  List.getLast?_concat l

/-- The port probe only reads the connection table, so changing the PID-file
registry does not change it. -/
theorem is_port_in_use_set_pidFiles (w : World) (x : List (String × Nat))
    (p : Option Nat) :
    is_port_in_use { w with pidFiles := x } p = is_port_in_use w p := rfl

/-- `startCore` only appends to the events already emitted. -/
theorem startCore_trace (w : World) (e : StartEnv) (name : String) (port : Nat)
    (cmdStr host origin : String) (senv : List (String × String)) (evs : List Event) :
    (startCore w e name port cmdStr host origin senv evs).2 =
      evs ++ (startCoreAux w e name port cmdStr host origin senv).2 := rfl

/-- When the pre-spawn probe reports the port in use, the tail of
`start_server` refuses: world unchanged, nothing spawned. -/
theorem startCoreAux_busy (w : World) (e : StartEnv) (name : String) (port : Nat)
    (cmdStr host origin : String) (senv : List (String × String))
    (h : (is_port_in_use w (some port)).isSome = true) :
    startCoreAux w e name port cmdStr host origin senv = (w, []) := by
  obtain ⟨q, hq⟩ := Option.isSome_iff_exists.mp h
  unfold startCoreAux
  rw [hq]

/-- Full description of `start_server` on the fresh success path: no
registry record, free port, tokenizable command, log opened, `Popen`
succeeded.  The spawn carries the built wrapper command list, `shell=False`
and the supervisor's own (unmodified) environment, and the new pid is
recorded. -/
theorem start_fresh_spawn (w : World) (e : StartEnv) (server : ServerSpec)
    (n : String) (p : Nat) (c cmd0 : String) (args : List String) (newPid : Nat)
    (hn : getTruthyStr server.name = some n)
    (hp : getTruthyNat server.internalPort = some p)
    (hc : getTruthyStr server.startCommand = some c)
    (hr : lookupA w.pidFiles n = none)
    (hfree : is_port_in_use w (some p) = none)
    (htok : shlexSplit c = some (cmd0 :: args))
    (hlog : e.logOpenOk = true)
    (hspawn : e.spawnResult = some newPid) :
    start_server w e server =
      ({ w with pidFiles := setA w.pidFiles n newPid },
        [Event.spawn (proxyCommandList (server.proxyListenHost.getD "0.0.0.0") p
            (server.allowOrigin.getD "*") server.env cmd0 args) false w.osEnviron,
         Event.savePid n newPid]) := by
  unfold start_server
  rw [hn]
  simp only [hp, hc, hr]
  unfold startCore startCoreAux
  rw [hfree, htok, hlog]
  simp only [hspawn, if_true, List.nil_append]

/-- The world `server_status` returns is the input world, except that the
stale PID file of the inspected service is removed exactly when
`statusStale` holds. -/
theorem server_status_frame (w : World) (server : ServerSpec) :
    (server_status w server).1 =
      (if statusStale w server then
        { w with pidFiles := eraseA w.pidFiles (server.name.getD "N/A") }
       else w) := by
  unfold server_status statusStale
  cases henabled : server.enabled with
  | false => simp
  | true =>
    simp only [Bool.not_true, Bool.false_eq_true, if_false, Bool.true_and]
    cases hpid : lookupA w.pidFiles (server.name.getD "N/A") with
    | none =>
      cases hport : statusPortPid w server <;> simp [hport]
    | some pid =>
      cases h0 : (pid != 0) with
      | false =>
        simp only [h0, Bool.false_and, Bool.false_eq_true, if_false]
        cases hport : statusPortPid w server <;> simp [hport, h0]
      | true =>
        cases halive : is_running w pid with
        | true =>
          simp only [h0, halive, Bool.true_and, Bool.not_true, Bool.and_false,
            Bool.false_eq_true, if_false, if_true]
          cases hport : statusPortPid w server with
          | none =>
            cases hip : getTruthyNat server.internalPort <;> simp [hip]
          | some q =>
            cases hqe : (q == (pid : Int)) <;> simp [hqe]
        | false =>
          simp only [h0, halive, Bool.and_false, Bool.false_eq_true, if_false,
            Bool.not_false, Bool.and_true, Bool.true_and, if_true]
          cases hport : statusPortPid w server <;> simp [hport]

end ManageMcp

namespace McpManager

/-- The `status_servers` cleanup loop, characterized: an entry survives
exactly when the snapshot contains no exited entry with its name. -/
theorem statusPruneGo_filter (snap : List StatusEntry) :
    ∀ tbl : List StatusEntry,
      statusPruneGo tbl snap =
        tbl.filter (fun x => !(snap.any (fun y => !(y.2.2 == none) && y.1 == x.1))) := by
  induction snap with
  | nil =>
    intro tbl
    simp [statusPruneGo]
  | cons e rest ih =>
    intro tbl
    unfold statusPruneGo
    cases he : (e.2.2 == none) with
    | true =>
      simp only [he, if_true]
      rw [ih tbl]
      apply List.filter_congr
      intro x _
      simp [he]
    | false =>
      simp only [he, Bool.false_eq_true, if_false]
      rw [ih (ManageMcp.eraseA tbl e.1)]
      unfold ManageMcp.eraseA
      rw [List.filter_filter]
      apply List.filter_congr
      intro x _
      by_cases hx : e.1 = x.1
      · simp [hx, he]
      · have h1 : (x.1 == e.1) = false := by simp [Ne.symm hx]
        have h2 : (e.1 == x.1) = false := by simp [hx]
        simp [bne, h1, h2]

/-- `statusPrune` keeps exactly the entries whose name has no exited record
in the table. -/
theorem statusPrune_filter (tbl : List StatusEntry) :
    statusPrune tbl =
      tbl.filter (fun x => !(tbl.any (fun y => !(y.2.2 == none) && y.1 == x.1))) :=
  statusPruneGo_filter tbl tbl

end McpManager

open ManageMcp in
/-- C1: for every world, runtime environment and service spec, if no
registry record (PID file) exists for the service's truthy name, then
`stop_server` terminates no operating-system process: it returns the world
unchanged with an empty event trace (so in particular no terminate, kill or
spawn event), even while the configured port is reported occupied by the
port probe. -/
theorem stop_without_record_touches_no_process (w : World) (e : StopEnv)
    (server : ServerSpec) (n : String)
    (hn : getTruthyStr server.name = some n)
    (hr : lookupA w.pidFiles n = none)
    (_hport : (is_port_in_use w server.internalPort).isSome = true) :
    stop_server w e server = (w, []) ∧
    (stop_server w e server).2.all (fun ev => !ev.touchesProcess) = true := by
  have hmain : stop_server w e server = (w, []) := by
    unfold stop_server
    rw [hn]
    simp only [hr]
  exact ⟨hmain, by rw [hmain]; rfl⟩

open ManageMcp in
/-- C1 witness: a concrete world whose port 9001 is occupied by an
unregistered process 99 and has no record for `svc`; `stop_server` is a
strict no-op on it. -/
theorem stop_without_record_touches_no_process_witness :
    getTruthyStr Fix.spec9001.name = some "svc" ∧
    lookupA Fix.wBusyNoRecord.pidFiles "svc" = none ∧
    (is_port_in_use Fix.wBusyNoRecord Fix.spec9001.internalPort).isSome = true ∧
    stop_server Fix.wBusyNoRecord Fix.benignStop Fix.spec9001 = (Fix.wBusyNoRecord, []) :=
  ⟨by decide, by decide, by decide,
    (stop_without_record_touches_no_process Fix.wBusyNoRecord Fix.benignStop Fix.spec9001
      "svc" (by decide) (by decide) (by decide)).1⟩

open ManageMcp in
/-- C2 counterexample: `server_status` is not side-effect free.  On the
concrete world holding a stale record (`svc` ↦ dead pid 42) with a free
port, the status read removes the PID file: the returned world differs from
the input world. -/
theorem server_status_mutates_on_stale_record :
    (server_status Fix.wStaleFree Fix.spec9001).1.pidFiles = [] ∧
    Fix.wStaleFree.pidFiles = [("svc", 42)] ∧
    (server_status Fix.wStaleFree Fix.spec9001).2 = Classification.stoppedStale := by
  decide

open ManageMcp in
/-- C2 amended: the status operation returns exactly one classification and
performs no process operation (the embedding of `server_status` emits no
process event at all); it leaves all state unchanged **except** registry
cleanup: `server_status` removes the service's PID file exactly when the
record's process is dead and the port probe reports nothing
(`statusStale`), and `status_servers` prunes exited entries from the
in-memory `RUNNING_PROCESSES` table. -/
theorem status_read_only_up_to_stale_cleanup :
    (∀ (w : World) (server : ServerSpec),
      (server_status w server).1 =
        (if statusStale w server then
          { w with pidFiles := eraseA w.pidFiles (server.name.getD "N/A") }
         else w)) ∧
    (∀ tbl : List McpManager.StatusEntry,
      McpManager.statusPrune tbl =
        tbl.filter (fun x => !(tbl.any (fun y => !(y.2.2 == none) && y.1 == x.1)))) :=
  ⟨server_status_frame, McpManager.statusPrune_filter⟩

open ManageMcp in
/-- C3 counterexample: the command-line entry point exits 0 (not non-zero)
both when the named service is disabled but requested to start, and when
the daemon cannot load its configuration. -/
theorem main_exits_zero_on_disabled_start_and_daemon_failure :
    mainExit ["start", "svc"] (some [Fix.spec9001Disabled]) = 0 ∧
    Fix.spec9001Disabled.enabled = false ∧
    mainExit ["daemon"] none = 0 := by
  decide

open ManageMcp in
/-- C3 amended: the entry point exits 0 on success and exits 1 when the
named service is not found in the configuration or when the configuration
cannot be loaded for a named command; but a disabled service requested to
start still exits 0 (only a warning is logged), and the daemon with an
unloadable configuration also exits 0 (`run_daemon` returns and `main`
calls `sys.exit(0)`). -/
theorem main_exit_code_spec (n : String) (servers : List ServerSpec) (hn : n ≠ "") :
    mainExit ["daemon"] none = 0 ∧
    mainExit ["status"] none = 0 ∧
    mainExit ["start", n] none = 1 ∧
    (servers.find? (fun s => s.name == some n) = none →
      mainExit ["start", n] (some servers) = 1) ∧
    (∀ s, servers.find? (fun s2 => s2.name == some n) = some s →
      mainExit ["start", n] (some servers) = 0) := by
  have hne : (n == "") = false := by simpa using hn
  have hg : getTruthyStr (some n) = some n := by simp [getTruthyStr, hne]
  refine ⟨rfl, rfl, ?_, ?_, ?_⟩
  · show (match getTruthyStr [n].head? with
      | none => (0 : Nat)
      | some n2 =>
        match (none : Option (List ServerSpec)) with
        | none => 1
        | some servers2 =>
          match servers2.find? (fun s => s.name == some n2) with
          | none => 1
          | some _ => 0) = 1
    rw [List.head?, hg]
  · intro hfind
    show (match getTruthyStr [n].head? with
      | none => (0 : Nat)
      | some n2 =>
        match (some servers : Option (List ServerSpec)) with
        | none => 1
        | some servers2 =>
          match servers2.find? (fun s => s.name == some n2) with
          | none => 1
          | some _ => 0) = 1
    rw [List.head?, hg]
    simp only [hfind]
  · intro s hfind
    show (match getTruthyStr [n].head? with
      | none => (0 : Nat)
      | some n2 =>
        match (some servers : Option (List ServerSpec)) with
        | none => 1
        | some servers2 =>
          match servers2.find? (fun s2 => s2.name == some n2) with
          | none => 1
          | some _ => 0) = 0
    rw [List.head?, hg]
    simp only [hfind]

open ManageMcp in
/-- C3 witness: with a one-service configuration, starting the disabled
service exits 0 and starting an unknown name exits 1. -/
theorem main_exit_code_spec_witness :
    mainExit ["start", "svc"] (some [Fix.spec9001Disabled]) = 0 ∧
    mainExit ["start", "nope"] (some [Fix.spec9001Disabled]) = 1 := by
  have h1 := main_exit_code_spec "svc" [Fix.spec9001Disabled] (by decide)
  have h2 := main_exit_code_spec "nope" [Fix.spec9001Disabled] (by decide)
  exact ⟨h1.2.2.2.2 Fix.spec9001Disabled (by decide), h2.2.2.2.1 (by decide)⟩

open McpManager in
/-- C4: on the success path of the `mcp_manager` Start (enabled spec, fresh
table, valid path, command present, template satisfied, spawn succeeded,
non-watch mode), after spawning and recording the process a bounded grace
wait is followed by one `poll()` liveness check and a port re-check: if the
process exited within the window the call reports it crashed early and the
record is removed; otherwise the record stays and the call reports the
server started and running. -/
theorem start_grace_window_classification (tbl : List (String × Nat)) (e : CmdEnv)
    (cfg : SConfig) (pid : Nat)
    (henabled : cfg.enabled = true)
    (hfresh : ManageMcp.lookupA tbl cfg.name = none)
    (hpath : (cfg.stype == some "source_code" && !cfg.pathPresent) = false)
    (hcmd : (ManageMcp.getTruthyStr cfg.startCommand).isSome = true)
    (hsse1 : (cfg.sseTemplate && (ManageMcp.getTruthyNat cfg.ssePort == none)) = false)
    (hsse2 : (cfg.sseTemplate && !cfg.templateOk) = false)
    (hrun : e.runResult = some pid) :
    (∀ code, e.pollAfterGrace = some code →
      start_server tbl false e cfg =
        (ManageMcp.eraseA (ManageMcp.setA tbl cfg.name pid) cfg.name,
          CmdOutcome.crashedEarly code) ∧
      ManageMcp.lookupA (start_server tbl false e cfg).1 cfg.name = none) ∧
    (e.pollAfterGrace = none →
      ManageMcp.lookupA (start_server tbl false e cfg).1 cfg.name = some pid ∧
      ((start_server tbl false e cfg).2).isStarted = true) := by
  obtain ⟨cs, hcs⟩ := Option.isSome_iff_exists.mp hcmd
  have hres : start_server tbl false e cfg =
      (match e.pollAfterGrace with
        | some code => (ManageMcp.eraseA (ManageMcp.setA tbl cfg.name pid) cfg.name,
            CmdOutcome.crashedEarly code)
        | none =>
          match pyOrPort cfg.ssePort cfg.port with
          | some _ => if e.portCheck2 then (ManageMcp.setA tbl cfg.name pid, .startedOk)
                      else (ManageMcp.setA tbl cfg.name pid, .startedPortWarn)
          | none => (ManageMcp.setA tbl cfg.name pid, .startedNoPortCheck)) := by
    unfold start_server
    rw [henabled]
    simp only [hfresh, hcs, hpath, hsse1, hsse2, hrun, Bool.not_true, Bool.false_eq_true,
      if_false, Bool.true_eq_false]
  constructor
  · intro code hcode
    rw [hres, hcode]
    exact ⟨rfl, ManageMcp.lookupA_eraseA _ _⟩
  · intro hcode
    rw [hres, hcode]
    cases hpp : pyOrPort cfg.ssePort cfg.port with
    | none => exact ⟨ManageMcp.lookupA_setA _ _ _, rfl⟩
    | some q =>
      cases hc2 : e.portCheck2 with
      | true => simp [ManageMcp.lookupA_setA, CmdOutcome.isStarted]
      | false => simp [ManageMcp.lookupA_setA, CmdOutcome.isStarted]

open McpManager in
/-- C4 witness: the same fresh spec started twice, once with a process that
exits during the grace window (record removed, crash reported) and once
with a surviving process (record kept, started reported). -/
theorem start_grace_window_classification_witness :
    ManageMcp.lookupA (start_server [] false Fix.envCrash Fix.cfgPlain).1 "svc" = none ∧
    (start_server [] false Fix.envCrash Fix.cfgPlain).2 = CmdOutcome.crashedEarly 1 ∧
    ManageMcp.lookupA (start_server [] false Fix.envLive Fix.cfgPlain).1 "svc" = some 55 ∧
    ((start_server [] false Fix.envLive Fix.cfgPlain).2).isStarted = true := by
  have h1 := start_grace_window_classification [] Fix.envCrash Fix.cfgPlain 55 (by decide)
    (by decide) (by decide) (by decide) (by decide) (by decide) (by decide)
  have h2 := start_grace_window_classification [] Fix.envLive Fix.cfgPlain 55 (by decide)
    (by decide) (by decide) (by decide) (by decide) (by decide) (by decide)
  refine ⟨(h1.1 1 (by decide)).2, ?_, (h2.2 (by decide)).1, (h2.2 (by decide)).2⟩
  rw [(h1.1 1 (by decide)).1]

open ManageMcp in
/-- C5 counterexample: `start_server` on a stale record (`svc` ↦ dead pid
42) with the port occupied by an unidentified owner refuses to spawn — but
it does NOT leave the registry unchanged: the stale PID file has been
removed, so the claim's frame condition fails on this input. -/
theorem start_port_conflict_still_clears_stale_record :
    hasSpawn (start_server Fix.wStaleBusy Fix.benignStart Fix.spec9001).2 = false ∧
    (start_server Fix.wStaleBusy Fix.benignStart Fix.spec9001).1.pidFiles ≠
      Fix.wStaleBusy.pidFiles := by
  decide

open ManageMcp in
/-- C5 amended: whenever the port probe reports the configured port as
listening (by an unknown owner or by a pid other than the service's own
live recorded pid), `start_server` spawns nothing, and the registry is
unchanged except that a stale record for the service may have been
removed. -/
theorem start_port_busy_never_spawns (w : World) (e : StartEnv) (server : ServerSpec)
    (n : String) (p : Nat) (c : String)
    (hn : getTruthyStr server.name = some n)
    (hp : getTruthyNat server.internalPort = some p)
    (hc : getTruthyStr server.startCommand = some c)
    (hbusy : (is_port_in_use w (some p)).isSome = true) :
    hasSpawn (start_server w e server).2 = false ∧
    ((start_server w e server).1.pidFiles = w.pidFiles ∨
      (start_server w e server).1.pidFiles = eraseA w.pidFiles n) := by
  have haux := startCoreAux_busy w e n p c (server.proxyListenHost.getD "0.0.0.0")
    (server.allowOrigin.getD "*") server.env hbusy
  have hbusy2 : (is_port_in_use { w with pidFiles := eraseA w.pidFiles n }
      (some p)).isSome = true := by
    rw [is_port_in_use_set_pidFiles]; exact hbusy
  have haux2 := startCoreAux_busy { w with pidFiles := eraseA w.pidFiles n } e n p c
    (server.proxyListenHost.getD "0.0.0.0") (server.allowOrigin.getD "*") server.env hbusy2
  unfold start_server
  rw [hn]
  simp only [hp, hc]
  cases hr : lookupA w.pidFiles n with
  | none =>
    simp only [startCore, haux]
    exact ⟨rfl, by simp⟩
  | some pid =>
    cases hcond : (pid != 0 && is_running w pid) with
    | true =>
      simp only [hcond]
      obtain ⟨q, hq⟩ := Option.isSome_iff_exists.mp hbusy
      rw [hq]
      cases hqe : (q == (pid : Int)) with
      | true =>
        simp only [hqe, if_true]
        exact ⟨rfl, by simp⟩
      | false =>
        simp only [hqe, Bool.false_eq_true, if_false, startCore, haux]
        exact ⟨rfl, by simp⟩
    | false =>
      simp only [hcond, Bool.false_eq_true, if_false]
      cases h0 : (pid != 0) with
      | true =>
        simp only [h0, if_true, startCore, haux2]
        exact ⟨rfl, by simp⟩
      | false =>
        simp only [h0, Bool.false_eq_true, if_false, startCore, haux]
        exact ⟨rfl, by simp⟩

open ManageMcp in
/-- C5 witness: with no record and port 9001 occupied by pid 99,
`start_server` spawns nothing. -/
theorem start_port_busy_never_spawns_witness :
    hasSpawn (start_server Fix.wBusyNoRecord Fix.benignStart Fix.spec9001).2 = false :=
  (start_port_busy_never_spawns Fix.wBusyNoRecord Fix.benignStart Fix.spec9001 "svc" 9001
    "serve --port 9001" (by decide) (by decide) (by decide) (by decide)).1

open ManageMcp in
/-- C6: when a registry record exists whose (nonzero) pid is dead,
`start_server` removes that record first — the very first event of its
trace is the removal of the service's PID file, so every spawn can only
come after the stale record is gone. -/
theorem start_removes_stale_record_before_spawn (w : World) (e : StartEnv)
    (server : ServerSpec) (n : String) (p : Nat) (c : String) (pid : Nat)
    (hn : getTruthyStr server.name = some n)
    (hp : getTruthyNat server.internalPort = some p)
    (hc : getTruthyStr server.startCommand = some c)
    (hr : lookupA w.pidFiles n = some pid)
    (hpid : pid ≠ 0)
    (hdead : is_running w pid = false) :
    (start_server w e server).2.head? = some (Event.removePid n) := by
  have h0 : (pid != 0) = true := by simpa using hpid
  unfold start_server
  rw [hn]
  simp only [hp, hc, hr, h0, hdead, Bool.and_false, Bool.false_eq_true, if_false, if_true]
  rw [startCore_trace]
  rfl

open ManageMcp in
/-- C6 witness: a stale record (`svc` ↦ dead pid 42) with a free port; the
first event of the start trace is the removal of the stale PID file (the
spawn follows it). -/
theorem start_removes_stale_record_before_spawn_witness :
    (start_server Fix.wStaleFree Fix.benignStart Fix.spec9001).2.head? =
      some (Event.removePid "svc") :=
  start_removes_stale_record_before_spawn Fix.wStaleFree Fix.benignStart Fix.spec9001
    "svc" 9001 "serve --port 9001" 42 (by decide) (by decide) (by decide) (by decide)
    (by decide) (by decide)

open ManageMcp in
/-- C7: whenever a registry record (with a truthy pid) exists,
`stop_server` removes it once its termination sequence completes — whether
termination was graceful, forced after timeout, interrupted by an error, or
skipped because the process was already dead (the conclusion holds for
every `StopEnv`) — and the removal is the last event of the trace, so a
later Start finds no dead record. -/
theorem stop_always_removes_record (w : World) (e : StopEnv) (server : ServerSpec)
    (n : String) (pid : Nat)
    (hn : getTruthyStr server.name = some n)
    (hr : lookupA w.pidFiles n = some pid)
    (hpid : pid ≠ 0) :
    (stop_server w e server).1.pidFiles = eraseA w.pidFiles n ∧
    lookupA (stop_server w e server).1.pidFiles n = none ∧
    (stop_server w e server).2.getLast? = some (Event.removePid n) := by
  unfold stop_server
  rw [hn]
  simp only [hr]
  have h0 : (pid != 0) = true := by simpa using hpid
  cases halive : is_running w pid
  · simp [h0, lookupA_eraseA]
  · simp [h0, lookupA_eraseA, getLast_append_one]

open ManageMcp in
/-- C7 witness: stopping `svc` with a live record removes its PID file. -/
theorem stop_always_removes_record_witness :
    (stop_server Fix.wRecordAlive Fix.benignStop Fix.spec9001).1.pidFiles = [] ∧
    lookupA (stop_server Fix.wRecordAlive Fix.benignStop Fix.spec9001).1.pidFiles "svc"
      = none := by
  have h := stop_always_removes_record Fix.wRecordAlive Fix.benignStop Fix.spec9001 "svc"
    42 (by decide) (by decide) (by decide)
  exact ⟨by decide, h.2.1⟩

/-- C8 counterexample: on every non-Windows platform `run_command`
(`process_utils.py`) passes the raw command string to `Popen` with
`shell=True` — the command IS re-interpreted by a shell and is not
tokenized into an argument list, refuting the claim for the spawn path it
cites. -/
theorem run_command_posix_uses_shell :
    McpManager.run_command_shell "posix" "serve --port 9001" = true ∧
    McpManager.run_command_args "posix" "serve --port 9001" =
      Sum.inl "serve --port 9001" :=
  ⟨rfl, rfl⟩

open ManageMcp in
/-- C8 amended: in the `manage_mcp` supervisor the raw start command is
tokenized by `shlex.split` into an executable and literal arguments and the
child is spawned from that list with `shell=False`; the wrapper's listen
host, listen port and allowed-origin flags are prepended ahead of the
wrapped executable and arguments, each extra environment entry becomes a
`-e KEY VALUE` wrapper flag pair, and the environment handed to `Popen` is
the supervisor's own `os.environ` copy, untouched by the service's extra
entries.  The `mcp_manager` spawn path (`run_command`), however, passes the
raw string through a shell on non-Windows platforms. -/
theorem start_spawns_tokenized_wrapped_command (w : World) (e : StartEnv)
    (server : ServerSpec) (n : String) (p : Nat) (c cmd0 : String)
    (args : List String) (newPid : Nat)
    (hn : getTruthyStr server.name = some n)
    (hp : getTruthyNat server.internalPort = some p)
    (hc : getTruthyStr server.startCommand = some c)
    (hr : lookupA w.pidFiles n = none)
    (hfree : is_port_in_use w (some p) = none)
    (htok : shlexSplit c = some (cmd0 :: args))
    (hlog : e.logOpenOk = true)
    (hspawn : e.spawnResult = some newPid) :
    (start_server w e server).2 =
      [Event.spawn (["mcp-proxy", "--sse-host", server.proxyListenHost.getD "0.0.0.0",
          "--sse-port", toString p, "--allow-origin", server.allowOrigin.getD "*"]
            ++ server.env.flatMap (fun kv => ["-e", kv.1, kv.2]) ++ cmd0 :: args) false
          w.osEnviron,
        Event.savePid n newPid] ∧
    (start_server w e server).1.pidFiles = setA w.pidFiles n newPid ∧
    (∀ cmdStr : String, McpManager.run_command_shell "posix" cmdStr = true) := by
  have heq := start_fresh_spawn w e server n p c cmd0 args newPid hn hp hc hr hfree htok
    hlog hspawn
  refine ⟨?_, ?_, ?_⟩
  · rw [heq]
    rfl
  · rw [heq]
  · intro cmdStr
    rfl

open ManageMcp in
/-- C8 witness: starting `svc` (command `serve --port 9001`, extra
environment `API_KEY=k`) on a fresh world spawns exactly
`mcp-proxy --sse-host 0.0.0.0 --sse-port 9001 --allow-origin * -e API_KEY k
serve --port 9001` with `shell=False` and the supervisor's own environment. -/
theorem start_spawns_tokenized_wrapped_command_witness :
    (start_server Fix.wFreePort Fix.benignStart Fix.spec9001).2 =
      [Event.spawn ["mcp-proxy", "--sse-host", "0.0.0.0", "--sse-port", "9001",
          "--allow-origin", "*", "-e", "API_KEY", "k", "serve", "--port", "9001"] false
          [("PATH", "/bin")],
        Event.savePid "svc" 77] := by
  have h := start_spawns_tokenized_wrapped_command Fix.wFreePort Fix.benignStart
    Fix.spec9001 "svc" 9001 "serve --port 9001" "serve" ["--port", "9001"] 77 (by decide)
    (by decide) (by decide) (by decide) (by decide) (by decide) (by decide) (by decide)
  rw [h.1]
  decide

/-- C9: `manage_mcp.start_server` takes no lock, so two concurrent Start
calls for the same name interleave freely.  Under the strictly alternating
schedule both threads read the absent PID file and probe the still-unbound
port before either spawns, so both spawn: two processes are created
(`spawnCount = 2`) and the second `save_pid` (pid 101) overwrites the first
record (pid 100) — refuting per-name mutual exclusion on the code as
written. -/
theorem concurrent_starts_double_spawn :
    (Race.run Race.altSchedule Race.raceStart Race.freshThread Race.freshThread).1.spawnCount
      = 2 ∧
    (Race.run Race.altSchedule Race.raceStart Race.freshThread Race.freshThread).1.pidFile
      = some 101 := by
  decide

open ManageMcp in
/-- C10: when the connection-table query raises, `is_port_in_use` returns
`none` — exactly what it returns for a free port (empty table) — and
`start_server`'s pre-spawn conflict check therefore treats the
undeterminable port as free: it proceeds to spawn and records the new pid
instead of failing or reporting an unknown owner. -/
theorem port_probe_failure_treated_as_free (w : World) (e : StartEnv)
    (server : ServerSpec) (n : String) (p : Nat) (c cmd0 : String)
    (args : List String) (newPid : Nat)
    (hconn : w.conns = none)
    (hn : getTruthyStr server.name = some n)
    (hp : getTruthyNat server.internalPort = some p)
    (hc : getTruthyStr server.startCommand = some c)
    (hr : lookupA w.pidFiles n = none)
    (htok : shlexSplit c = some (cmd0 :: args))
    (hlog : e.logOpenOk = true)
    (hspawn : e.spawnResult = some newPid) :
    is_port_in_use w (some p) = none ∧
    is_port_in_use { w with conns := some [] } (some p) = none ∧
    hasSpawn (start_server w e server).2 = true ∧
    lookupA (start_server w e server).1.pidFiles n = some newPid := by
  have hfree : is_port_in_use w (some p) = none := by
    unfold is_port_in_use
    rw [hconn]
  have heq := start_fresh_spawn w e server n p c cmd0 args newPid hn hp hc hr hfree htok
    hlog hspawn
  refine ⟨hfree, rfl, ?_, ?_⟩
  · rw [heq]
    rfl
  · rw [heq]
    exact lookupA_setA _ _ _

open ManageMcp in
/-- C10 witness: with the connection table unavailable (`conns = none`),
starting `svc` spawns and records pid 77. -/
theorem port_probe_failure_treated_as_free_witness :
    hasSpawn (start_server Fix.wProbeDenied Fix.benignStart Fix.spec9001).2 = true ∧
    lookupA (start_server Fix.wProbeDenied Fix.benignStart Fix.spec9001).1.pidFiles "svc"
      = some 77 := by
  have h := port_probe_failure_treated_as_free Fix.wProbeDenied Fix.benignStart
    Fix.spec9001 "svc" 9001 "serve --port 9001" "serve" ["--port", "9001"] 77 (by decide)
    (by decide) (by decide) (by decide) (by decide) (by decide) (by decide) (by decide)
  exact ⟨h.2.2.1, h.2.2.2⟩
